import Mathlib

/-!
# Verification of the DeFi DEX reputation scoring service

A shallow embedding of the scoring pipeline (`app/models/dex_model.py`),
the message codec (`app/utils/types.py`) and the stream supervisor
(`app/services/kafka_service.py`).  Python floats are modelled as exact
rationals (`ℚ`), Python dictionaries with a known key set as structures with
`Option` fields (`none` = key absent), and exceptions as `Except`.
-/

set_option maxHeartbeats 1000000

/-- Arithmetic mean of a list of rationals (`statistics.mean`; callers guard
against the empty list exactly as the Python code does). -/
def listMean (l : List ℚ) : ℚ := l.sum / l.length

/-- Round half to even at integer precision, the rounding mode of Python's
built-in `round`. -/
def roundHalfEven (x : ℚ) : ℤ :=
  if x - ⌊x⌋ < 1/2 then ⌊x⌋
  else if 1/2 < x - ⌊x⌋ then ⌊x⌋ + 1
  else if Even ⌊x⌋ then ⌊x⌋ else ⌊x⌋ + 1

/-- Python `round(x, 3)` on an exact rational value. -/
def round3 (x : ℚ) : ℚ := (roundHalfEven (x * 1000) : ℚ) / 1000

/-- Python `round(x, 2)` on an exact rational value. -/
def round2 (x : ℚ) : ℚ := (roundHalfEven (x * 100) : ℚ) / 100

/-- Python substring test `pat in s` for a nonempty pattern: `splitOn`
produces more than one chunk exactly when the pattern occurs. -/
def strContains (s pat : String) : Bool := 1 < (s.splitOn pat).length

/-- Fuel-bounded multiplicity of `p` in `n` (how many times `p` divides `n`). -/
def multOfAux (p : ℕ) : ℕ → ℕ → ℕ
  | 0, _ => 0
  | fuel + 1, n => if 2 ≤ p ∧ 0 < n ∧ n % p = 0 then 1 + multOfAux p fuel (n / p) else 0

/-- Multiplicity of `p` in `n`. -/
def multOf (p n : ℕ) : ℕ := multOfAux p n n

/-- Python `str()` of a float whose value is an exact decimal rational: the
shortest decimal rendering, with a trailing `.0` for integral values (as in
`str(0.0) = "0.0"`).  Rationals that are not exact decimals (which the
program never produces for this field) are rendered as a fraction. -/
def pyFloatStr (q : ℚ) : String :=
  let sign := if q < 0 then "-" else ""
  let n := q.num.natAbs
  let d := q.den
  let a := multOf 2 d
  let b := multOf 5 d
  if 2 ^ a * 5 ^ b = d then
    let k := max a b
    if k = 0 then sign ++ toString n ++ ".0"
    else
      let scaled := n * 10 ^ k / d
      let ip := scaled / 10 ^ k
      let fp := scaled % 10 ^ k
      let fs := toString fp
      sign ++ toString ip ++ "." ++ ("".pushn '0' (k - fs.length)) ++ fs
  else sign ++ toString n ++ "/" ++ toString d

/-- A timestamp value as stored in a transaction dict: either a number, or a
string carried together with the result of `datetime.fromisoformat` (an
external library call), which either yields an epoch value or fails. -/
inductive TsVal where
  | num (q : ℚ)
  | str (s : String) (iso : Option ℚ)
deriving DecidableEq, Repr

/-- Python truthiness of a timestamp value (`0`, `0.0` and `""` are falsy). -/
def tsTruthy : TsVal → Bool
  | .num q => decide (q ≠ 0)
  | .str s _ => decide (s ≠ "")

/-- `DexModel._parse_timestamp`: numbers parse to themselves, strings parse
via `fromisoformat` (or fail), anything absent fails. -/
def parseTimestamp : TsVal → Option ℚ
  | .num q => some q
  | .str _ iso => iso

/-- A transaction dictionary as probed by `DexModel` (the keys the model
reads; `none` = key absent). -/
structure Tx where
  type_ : Option String := none
  action : Option String := none
  amount_usd : Option ℚ := none
  timestamp : Option TsVal := none
  pool_id : Option String := none
  pool_address : Option String := none
  token_in_symbol : Option String := none
  token_out_symbol : Option String := none
deriving DecidableEq, Repr

/-- A validated `TokenData` (pydantic model with all fields required). -/
structure TokData where
  amount : ℤ
  amountUSD : ℚ
  address : String
  symbol : String
deriving DecidableEq, Repr

/-- A validated `Transaction` (pydantic `Transaction` after decoding). -/
structure DTx where
  document_id : String
  action : String
  timestamp : ℤ
  caller : String
  protocol : String
  poolId : String
  poolName : String
  tokenIn : Option TokData := none
  tokenOut : Option TokData := none
  token0 : Option TokData := none
  token1 : Option TokData := none
deriving DecidableEq, Repr

/-- A validated `ProtocolData` group. -/
structure DProtocol where
  protocolType : String
  transactions : List DTx
deriving DecidableEq, Repr

/-- A validated `WalletTransactionMessage`. -/
structure DMsg where
  wallet_address : String
  data : List DProtocol
deriving DecidableEq, Repr

/-- The `protocol_data` dict built in `KafkaService.process_message`.  The
dex model later probes it for the keys `lp_transactions` and
`swap_transactions`, which `process_message` never writes, so the structure
carries all four key names a reader may probe. -/
structure PD where
  protocolType : Option String := none
  transactions : Option (List DTx) := none
  lp_transactions : Option (List Tx) := none
  swap_transactions : Option (List Tx) := none
deriving DecidableEq, Repr

/-- `DexModel.preprocess_dex_transactions`: reads only the keys
`lp_transactions` and `swap_transactions` (defaulting to `[]`) and tags each
entry with a `type` key (`{'type': 'lp', **tx}`: an existing `type` key in
the entry wins over the tag). -/
def preprocess_dex_transactions (protocol_data : PD) : List Tx :=
  ((protocol_data.lp_transactions.getD []).map fun tx =>
    { tx with type_ := tx.type_.orElse fun _ => some "lp" })
  ++ ((protocol_data.swap_transactions.getD []).map fun tx =>
    { tx with type_ := tx.type_.orElse fun _ => some "swap" })

/-- The `future_withdraws` list comprehension inside
`DexModel.calculate_holding_time`: parsable withdraw timestamps strictly
greater than the deposit time, drawn from the entire withdraw list. -/
def futureWithdrawTimes (withdraws : List Tx) (deposit_time : ℚ) : List ℚ :=
  withdraws.filterMap fun w =>
    match w.timestamp.bind parseTimestamp with
    | some parsed_time => if deposit_time < parsed_time then some parsed_time else none
    | none => none

/-- The body of the `if future_withdraws:` block of
`DexModel.calculate_holding_time`: the earliest strictly-later withdraw time
yields a holding time in days, no such withdraw yields nothing. -/
def holdingContribution (withdraws : List Tx) (deposit_time : ℚ) : Option ℚ :=
  match (futureWithdrawTimes withdraws deposit_time).min? with
  | some withdraw_time => some ((withdraw_time - deposit_time) / 86400)
  | none => none

/-- `DexModel.calculate_holding_time`.  Note the Python guard
`if not deposit_timestamp: continue`, which drops falsy timestamps (absent,
`0`, `0.0` or `""`) before parsing. -/
def calculate_holding_time (deposits withdraws : List Tx) : ℚ :=
  if deposits.isEmpty then 0
  else
    let holding_times := deposits.filterMap fun deposit =>
      match deposit.timestamp with
      | none => none
      | some tsv =>
        if tsTruthy tsv = false then none
        else
          match parseTimestamp tsv with
          | none => none
          | some deposit_time => holdingContribution withdraws deposit_time
    if holding_times.isEmpty then 0 else listMean holding_times

/-- The LP feature dictionary produced by `DexModel.calculate_lp_features`
(always fully populated when produced at all). -/
structure LPFeatures where
  total_deposit_usd : ℚ
  total_withdraw_usd : ℚ
  num_deposits : ℕ
  num_withdraws : ℕ
  withdraw_ratio : ℚ
  avg_hold_time_days : ℚ
  account_age_days : ℚ
  unique_pools : ℕ
deriving DecidableEq, Repr

/-- `DexModel.calculate_lp_features`; `none` models the empty dict returned
for an empty transaction list. -/
def calculate_lp_features (transactions : List Tx) : Option LPFeatures :=
  if transactions.isEmpty then none
  else
    let lp_transactions := transactions.filter fun tx => tx.type_ == some "lp"
    let deposits := lp_transactions.filter fun tx => tx.action == some "deposit"
    let withdraws := lp_transactions.filter fun tx => tx.action == some "withdraw"
    let total_deposit_usd := (deposits.map fun tx => tx.amount_usd.getD 0).sum
    let total_withdraw_usd := (withdraws.map fun tx => tx.amount_usd.getD 0).sum
    let withdraw_ratio :=
      if 0 < total_deposit_usd then total_withdraw_usd / total_deposit_usd else 0
    let timestamps := lp_transactions.filterMap fun tx => tx.timestamp.bind parseTimestamp
    let account_age_days :=
      if 2 ≤ timestamps.length then
        ((timestamps.max?.getD 0) - (timestamps.min?.getD 0)) / 86400
      else 0
    some {
      total_deposit_usd := total_deposit_usd
      total_withdraw_usd := total_withdraw_usd
      num_deposits := deposits.length
      num_withdraws := withdraws.length
      withdraw_ratio := withdraw_ratio
      avg_hold_time_days := calculate_holding_time deposits withdraws
      account_age_days := account_age_days
      unique_pools := (lp_transactions.filterMap fun tx =>
        match tx.pool_id with
        | some p => if p = "" then none else some p
        | none => none).dedup.length }

/-- The immutable `ScoreBreakdown` dataclass. -/
structure ScoreBreakdown where
  volume_score : ℚ
  frequency_score : ℚ
  retention_score : ℚ
  holding_score : ℚ
  diversity_score : ℚ
  total_score : ℚ
deriving DecidableEq, Repr

/-- `DexModel.calculate_lp_score` (empty features score 0). -/
def calculate_lp_score (features : Option LPFeatures) : ℚ × ScoreBreakdown :=
  match features with
  | none => (0, ⟨0, 0, 0, 0, 0, 0⟩)
  | some f =>
    let volume_score := min (f.total_deposit_usd / 10000 * 300) 300
    let frequency_score := min ((f.num_deposits : ℚ) * 20) 200
    let retention_score := max 0 ((1 - f.withdraw_ratio) * 250)
    let holding_score := min (f.avg_hold_time_days / 30 * 150) 150
    let diversity_score := min ((f.unique_pools : ℚ) * 20) 100
    let total_score :=
      volume_score + frequency_score + retention_score + holding_score + diversity_score
    (total_score,
      ⟨volume_score, frequency_score, retention_score, holding_score, diversity_score,
        total_score⟩)

/-- The fixed stable-token set of `DexModel.__init__`. -/
def stable_tokens : List String := ["USDC", "USDT", "DAI", "LUSD", "USDP", "TUSD", "FRAX"]

/-- Python `str.upper()` on the ASCII token symbols: upper-case character by
character. -/
def strUpper (s : String) : String := ⟨s.data.map Char.toUpper⟩

/-- `DexModel._is_stable_token`: case-insensitive membership in the stable set. -/
def is_stable_token (token : String) : Bool := stable_tokens.contains (strUpper token)

/-- The distinct token symbols of a swap list: the union of the truthy
`token_in_symbol` and `token_out_symbol` values (Python builds two set
comprehensions and unites them). -/
def swapTokens (swaps : List Tx) : List String :=
  ((swaps.filterMap fun tx =>
      match tx.token_in_symbol with
      | some s => if s = "" then none else some s
      | none => none)
    ++ (swaps.filterMap fun tx =>
      match tx.token_out_symbol with
      | some s => if s = "" then none else some s
      | none => none)).dedup

/-- `DexModel.calculate_token_diversity`. -/
def calculate_token_diversity (swaps : List Tx) : ℕ :=
  if swaps.isEmpty then 0
  else
    let all_tokens := swapTokens swaps
    let stable_count := all_tokens.countP fun t => is_stable_token t
    let volatile_count := all_tokens.length - stable_count
    min (stable_count * 10 + volatile_count * 15) 150

/-- Insert into an ascending list, keeping order. -/
def insertSorted (x : ℚ) : List ℚ → List ℚ
  | [] => [x]
  | y :: ys => if x ≤ y then x :: y :: ys else y :: insertSorted x ys

/-- Ascending sort of rational values (Python `sorted`; on plain numbers a
stable sort and any correct sort agree). -/
def sortQ (l : List ℚ) : List ℚ := l.foldr insertSorted []

/-- `DexModel.calculate_swap_frequency`. -/
def calculate_swap_frequency (swaps : List Tx) : ℚ :=
  if swaps.length < 2 then 0
  else
    let parsed := swaps.filterMap fun s => s.timestamp.bind parseTimestamp
    if parsed.length < 2 then 0
    else
      let swaps_sorted := sortQ parsed
      let time_diffs := swaps_sorted.zipWith (fun prev next => next - prev) swaps_sorted.tail
      let time_diffs_hours := time_diffs.map fun d => d / 3600
      let avg_time_between_swaps := listMean time_diffs_hours
      if avg_time_between_swaps ≤ 1 then 100
      else if avg_time_between_swaps ≤ 24 then 80
      else if avg_time_between_swaps ≤ 168 then 60
      else if avg_time_between_swaps ≤ 720 then 40
      else 20

/-- The swap feature dictionary of `DexModel.calculate_swap_features`. -/
structure SwapFeatures where
  total_swap_volume : ℚ
  num_swaps : ℕ
  unique_tokens_swapped : ℕ
  unique_pools_swapped : ℕ
  avg_swap_size : ℚ
  token_diversity_score : ℕ
  swap_frequency_score : ℚ
deriving DecidableEq, Repr

/-- `DexModel.calculate_swap_features`; `none` models the empty dict for an
empty transaction list, while a transaction list without swaps yields the
all-zero dictionary. -/
def calculate_swap_features (transactions : List Tx) : Option SwapFeatures :=
  if transactions.isEmpty then none
  else
    let swaps := transactions.filter fun tx => tx.type_ == some "swap"
    if swaps.isEmpty then some ⟨0, 0, 0, 0, 0, 0, 0⟩
    else
      let total_swap_volume := (swaps.map fun tx => tx.amount_usd.getD 0).sum
      let num_swaps := swaps.length
      let avg_swap_size := if 0 < num_swaps then total_swap_volume / (num_swaps : ℚ) else 0
      some {
        total_swap_volume := total_swap_volume
        num_swaps := num_swaps
        unique_tokens_swapped := (swapTokens swaps).length
        unique_pools_swapped := (swaps.filterMap fun tx =>
          let pid := match tx.pool_id with
            | some p => p
            | none => tx.pool_address.getD ""
          if pid = "" then none else some pid).dedup.length
        avg_swap_size := avg_swap_size
        token_diversity_score := calculate_token_diversity swaps
        swap_frequency_score := calculate_swap_frequency swaps }

/-- The swap score breakdown dictionary. -/
structure SwapBreakdown where
  volume_score : ℚ
  frequency_score : ℚ
  diversity_score : ℚ
  activity_score : ℚ
  pool_diversity_score : ℚ
deriving DecidableEq, Repr

/-- `DexModel.calculate_swap_score` (empty features score 0 with an empty
breakdown). -/
def calculate_swap_score (features : Option SwapFeatures) : ℚ × Option SwapBreakdown :=
  match features with
  | none => (0, none)
  | some f =>
    let volume_score := min (f.total_swap_volume / 10000 * 100) 100
    let frequency_score := min ((f.num_swaps : ℚ) / 50 * 100) 100
    let diversity_score := min ((f.token_diversity_score : ℚ) / 20 * 100) 100
    let activity_score := min (f.swap_frequency_score / 50 * 100) 100
    let pool_diversity_score := min ((f.unique_pools_swapped : ℚ) / 10 * 100) 100
    let total_score := volume_score * 0.3 + frequency_score * 0.2 + diversity_score * 0.2 +
      activity_score * 0.15 + pool_diversity_score * 0.15
    (total_score,
      some ⟨volume_score, frequency_score, diversity_score, activity_score,
        pool_diversity_score⟩)

/-- `DexModel.generate_user_tags` (dict `.get` defaults model the empty
feature dictionaries). -/
def generate_user_tags (lp_features : Option LPFeatures)
    (swap_features : Option SwapFeatures) : List String :=
  let total_deposit := (lp_features.map fun f => f.total_deposit_usd).getD 0
  let lp_tags : List String :=
    if 100000 ≤ total_deposit then ["Whale LP"]
    else if 50000 ≤ total_deposit then ["Large LP"]
    else if 10000 ≤ total_deposit then ["Medium LP"]
    else if 1000 ≤ total_deposit then ["Small LP"]
    else []
  let avg_holding_time := (lp_features.map fun f => f.avg_hold_time_days).getD 0
  let holder_tags : List String :=
    if 90 ≤ avg_holding_time then ["Long-term Holder"]
    else if 30 ≤ avg_holding_time then ["Medium-term Holder"]
    else []
  let total_volume := (swap_features.map fun f => f.total_swap_volume).getD 0
  let volume_tags : List String :=
    if 500000 ≤ total_volume then ["Whale Trader"]
    else if 100000 ≤ total_volume then ["Large Trader"]
    else []
  let num_swaps := (swap_features.map fun f => f.num_swaps).getD 0
  let freq_tags : List String :=
    if 100 ≤ num_swaps then ["High Frequency Trader"]
    else if 50 ≤ num_swaps then ["Active Trader"]
    else []
  let token_diversity := (swap_features.map fun f => f.token_diversity_score).getD 0
  let diversity_tags : List String :=
    if 15 ≤ token_diversity then ["Diversified Trader"]
    else []
  lp_tags ++ holder_tags ++ volume_tags ++ freq_tags ++ diversity_tags

/-- The result dictionary of `DexModel.calculate_final_score` /
`DexModel.process_wallet`. -/
structure WalletResult where
  zscore : ℚ
  lp_score : ℚ
  lp_features : Option LPFeatures
  lp_tags : List String
  swap_score : ℚ
  swap_features : Option SwapFeatures
  swap_tags : List String
deriving DecidableEq, Repr

/-- The zero-valued result returned by `process_wallet` for an empty
transaction list. -/
def zeroWalletResult : WalletResult := ⟨0, 0, none, [], 0, none, []⟩

/-- `DexModel.calculate_final_score`. -/
def calculate_final_score (lp_score swap_score : ℚ) (lp_features : Option LPFeatures)
    (swap_features : Option SwapFeatures) : WalletResult :=
  let final_score := lp_score * 0.6 + swap_score * 0.4
  let zscore0 := (final_score - 50) / 25
  let zscore := max (-3) (min 3 zscore0)
  let user_tags := generate_user_tags lp_features swap_features
  { zscore := round3 zscore
    lp_score := round2 lp_score
    lp_features := lp_features
    lp_tags := user_tags.filter fun t => strContains t "LP" || strContains t "Holder"
    swap_score := round2 swap_score
    swap_features := swap_features
    swap_tags := user_tags.filter fun t => strContains t "Trader" }

/-- `DexModel.process_wallet`. -/
def process_wallet (protocol_data : PD) : WalletResult :=
  let transactions := preprocess_dex_transactions protocol_data
  if transactions.isEmpty then zeroWalletResult
  else
    let lp_features := calculate_lp_features transactions
    let lp_score := (calculate_lp_score lp_features).1
    let swap_features := calculate_swap_features transactions
    let swap_score := (calculate_swap_score swap_features).1
    calculate_final_score lp_score swap_score lp_features swap_features

/-- A raw (wire) token leg: absent, or a well-typed `TokenData` payload. -/
abbrev RawTok := Option TokData

/-- A raw inbound transaction object as seen by the pydantic `Transaction`
model: every field may be absent. -/
structure RawTx where
  document_id : Option String := none
  action : Option String := none
  timestamp : Option ℤ := none
  caller : Option String := none
  protocol : Option String := none
  poolId : Option String := none
  poolName : Option String := none
  tokenIn : RawTok := none
  tokenOut : RawTok := none
  token0 : RawTok := none
  token1 : RawTok := none
deriving DecidableEq, Repr

/-- A raw protocol group as seen by the pydantic `ProtocolData` model. -/
structure RawProtocol where
  protocolType : Option String := none
  transactions : Option (List RawTx) := none
deriving DecidableEq, Repr

/-- A raw inbound message as seen by `WalletTransactionMessage`. -/
structure RawMsg where
  wallet_address : Option String := none
  data : Option (List RawProtocol) := none
deriving DecidableEq, Repr

/-- The action pattern `^(swap|deposit|withdraw)$` of the `Transaction`
model. -/
def actionOk (a : String) : Bool := a == "swap" || a == "deposit" || a == "withdraw"

/-- Validation of one raw transaction by the pydantic `Transaction` model:
all envelope fields are required, the action must match its pattern, and the
validators demand `tokenIn`/`tokenOut` for swaps and `token0`/`token1` for
deposits and withdraws. -/
def decodeTx (t : RawTx) : Except String DTx :=
  match t.document_id, t.action, t.timestamp, t.caller, t.protocol, t.poolId, t.poolName with
  | some did, some act, some ts, some c, some pr, some pid, some pn =>
    if actionOk act then
      if act = "swap" ∧ (t.tokenIn = none ∨ t.tokenOut = none) then
        .error "Swap transactions must have tokenIn and tokenOut"
      else if (act = "deposit" ∨ act = "withdraw") ∧ (t.token0 = none ∨ t.token1 = none) then
        .error "LP transactions must have token0 and token1"
      else
        .ok ⟨did, act, ts, c, pr, pid, pn, t.tokenIn, t.tokenOut, t.token0, t.token1⟩
    else .error "action pattern mismatch"
  | _, _, _, _, _, _, _ => .error "missing transaction field"

/-- Validation of a transaction list: all-or-nothing, as a pydantic
`List[Transaction]` field. -/
def decodeTxs : List RawTx → Except String (List DTx)
  | [] => .ok []
  | t :: ts =>
    match decodeTx t with
    | .error e => .error e
    | .ok d =>
      match decodeTxs ts with
      | .error e => .error e
      | .ok ds => .ok (d :: ds)

/-- Validation of one protocol group by the pydantic `ProtocolData` model:
`protocolType` is required and must match the pattern `^dexes$`, and the
transactions list is required and validated element-wise. -/
def decodeProtocol (p : RawProtocol) : Except String DProtocol :=
  match p.protocolType, p.transactions with
  | some pt, some txs =>
    if pt = "dexes" then
      match decodeTxs txs with
      | .error e => .error e
      | .ok ds => .ok ⟨pt, ds⟩
    else .error "protocolType pattern mismatch"
  | _, _ => .error "missing protocol field"

/-- Validation of the protocol-group list. -/
def decodeProtocols : List RawProtocol → Except String (List DProtocol)
  | [] => .ok []
  | p :: ps =>
    match decodeProtocol p with
    | .error e => .error e
    | .ok d =>
      match decodeProtocols ps with
      | .error e => .error e
      | .ok ds => .ok (d :: ds)

/-- `WalletTransactionMessage(**message_data)`: wallet address and data list
are required, and the data groups are validated element-wise. -/
def decodeMsg (m : RawMsg) : Except String DMsg :=
  match m.wallet_address, m.data with
  | some w, some ps =>
    match decodeProtocols ps with
    | .error e => .error e
    | .ok ds => .ok ⟨w, ds⟩
  | _, _ => .error "missing wallet_address or data"

/-- The `protocol_data` dict construction in `KafkaService.process_message`:
the first group whose `protocolType` is `"dexes"` supplies the keys
`protocolType` and `transactions`; otherwise the dict stays empty. -/
def buildPD (w : DMsg) : PD :=
  match w.data.find? fun p => p.protocolType == "dexes" with
  | some p => { protocolType := some p.protocolType, transactions := some p.transactions }
  | none => {}

/-- One entry of the success message's `categories` list. -/
structure CategoryOut where
  category : String
  score : ℚ
  transaction_count : ℕ
deriving DecidableEq, Repr

/-- The success record published to the success topic (timestamps and
processing time are wall-clock values outside the embedded core). -/
structure SuccessMsg where
  wallet_address : String
  zscore : String
  categories : List CategoryOut
deriving DecidableEq, Repr

/-- The failure record published to the failure topic. -/
structure FailureMsg where
  wallet_address : String
  error : String
  categories : List CategoryOut
deriving DecidableEq, Repr

/-- The success-message assembly in `KafkaService.process_message`: the
zscore is `str(result["zscore"])` and the per-category transaction counts
filter the `transactions` key of the protocol-data dict by action. -/
def buildSuccess (w : DMsg) (pd : PD) (result : WalletResult) : SuccessMsg :=
  { wallet_address := w.wallet_address
    zscore := pyFloatStr result.zscore
    categories :=
      [⟨"liquidity_provision", result.lp_score,
        ((pd.transactions.getD []).filter fun t =>
          t.action == "deposit" || t.action == "withdraw").length⟩,
       ⟨"trading", result.swap_score,
        ((pd.transactions.getD []).filter fun t => t.action == "swap").length⟩] }

/-- The happy path of `KafkaService.process_message` as a fallible function:
decode, build the protocol-data dict, score, encode. -/
def runPipeline (m : RawMsg) : Except String SuccessMsg :=
  match decodeMsg m with
  | .error e => .error e
  | .ok w =>
    let pd := buildPD w
    .ok (buildSuccess w pd (process_wallet pd))

/-- The two supervisor counters of `KafkaService.stats`. -/
structure Stats where
  messages_processed : ℕ
  messages_failed : ℕ
deriving DecidableEq, Repr

/-- A record emitted to one of the two output topics. -/
inductive OutRecord where
  | success (m : SuccessMsg)
  | failure (m : FailureMsg)
deriving DecidableEq, Repr

/-- `KafkaService.process_message` with its catch-all handler: any
per-record error becomes a failure record whose wallet address is recovered
from the raw payload (literal `"unknown"` when absent) with an empty
categories list, and bumps `messages_failed`. -/
def processMessage (m : RawMsg) (st : Stats) : OutRecord × Stats :=
  match runPipeline m with
  | .ok s => (.success s, ⟨st.messages_processed + 1, st.messages_failed⟩)
  | .error e =>
    (.failure ⟨m.wallet_address.getD "unknown", e, []⟩,
      ⟨st.messages_processed, st.messages_failed + 1⟩)

/-- The consume loop of `KafkaService.consume_messages` over a finite batch
of inbound records: every record is handled, none aborts the loop. -/
def consumeMessages : List RawMsg → Stats → List OutRecord × Stats
  | [], st => ([], st)
  | m :: ms, st =>
    let r := processMessage m st
    let rest := consumeMessages ms r.2
    (r.1 :: rest.1, rest.2)

/-- The outcome of one `kafka_service.run()` invocation as observed by the
retry loop: a normal return or a raised connection-level error. -/
inductive RunOutcome where
  | ok
  | fail
deriving DecidableEq, Repr

/-- How a finite observation of the retry loop ends: the terminal state after
exceeding the retry budget, or still pending (worker alive). -/
inductive LoopEnd where
  | failed
  | pending
deriving DecidableEq, Repr

/-- `KafkaServiceManager._run_with_retry` (max_retries 5, base_delay 5),
driven by a finite list of run outcomes: returns the backoff sleeps
performed, in seconds and in order, and how the loop ends.  A successful run
resets the retry counter; a failure bumps it, stops the worker once the
counter exceeds 5, and otherwise sleeps `5 * 2 ^ (count - 1)`. -/
def runWithRetry : List RunOutcome → ℕ → List ℕ × LoopEnd
  | [], _ => ([], .pending)
  | .ok :: rest, _ => runWithRetry rest 0
  | .fail :: rest, retry_count =>
    let rc := retry_count + 1
    if 5 < rc then ([], .failed)
    else
      let delay := 5 * 2 ^ (rc - 1)
      let r := runWithRetry rest rc
      (delay :: r.1, r.2)

/-- Claim C2's wording of the holding-time computation: every deposit with a
parsable timestamp is matched against the minimum strictly-later withdraw
time drawn from the entire withdraw set; a deposit with no strictly later
parsable withdraw contributes nothing; the result is the mean of the matched
day-differences, and 0 with no deposits or no matches. -/
def claimHoldingTime (deposits withdraws : List Tx) : ℚ :=
  let matched := deposits.filterMap fun deposit =>
    match deposit.timestamp.bind parseTimestamp with
    | none => none
    | some deposit_time => holdingContribution withdraws deposit_time
  if matched.isEmpty then 0 else listMean matched

/-- Claim C2 as amended: only deposits whose raw timestamp value is truthy
(present and neither `0` nor the empty string) participate; the rest is
claim C2's matching rule unchanged. -/
def claimHoldingTimeTruthy (deposits withdraws : List Tx) : ℚ :=
  let matched := deposits.filterMap fun deposit =>
    match deposit.timestamp with
    | none => none
    | some tsv =>
      if tsTruthy tsv then
        match parseTimestamp tsv with
        | none => none
        | some deposit_time => holdingContribution withdraws deposit_time
      else none
  if matched.isEmpty then 0 else listMean matched

/-- Number of distinct stable token symbols of a swap list (claim C5). -/
def stableTokenCount (swaps : List Tx) : ℕ :=
  (swapTokens swaps).countP fun t => is_stable_token t

/-- Number of distinct non-stable token symbols of a swap list (claim C5). -/
def volatileTokenCount (swaps : List Tx) : ℕ :=
  (swapTokens swaps).countP fun t => !is_stable_token t

/-- A deposit at epoch 0 — parsable, but falsy in Python (claim C2). -/
def c2Deposit : Tx := { timestamp := some (.num 0) }

/-- A withdraw one day after epoch 0 (claim C2). -/
def c2Withdraw : Tx := { timestamp := some (.num 86400) }

/-- The transaction list of claim C3: one deposit at `t0` and one withdraw of
usd amount `amount` thirty days later on the same pool. -/
def c3Txs (t0 amount : ℚ) : List Tx :=
  [{ type_ := some "lp", action := some "deposit", amount_usd := some 5,
     timestamp := some (.num t0), pool_id := some "pool1" },
   { type_ := some "lp", action := some "withdraw", amount_usd := some amount,
     timestamp := some (.num (t0 + 2592000)), pool_id := some "pool1" }]

/-- C1: for every inbound message that passes validation, the protocol-data
dict built by `process_message` carries no `lp_transactions` /
`swap_transactions` keys, so `preprocess_dex_transactions` returns the empty
list, `process_wallet` returns the zero-valued result, and the success
record's zscore string is `"0.0"`. -/
theorem claim_C1 (m : RawMsg) (w : DMsg) (_h : decodeMsg m = .ok w) :
    (buildPD w).lp_transactions = none ∧ (buildPD w).swap_transactions = none ∧
    preprocess_dex_transactions (buildPD w) = [] ∧
    process_wallet (buildPD w) = zeroWalletResult ∧
    (buildSuccess w (buildPD w) (process_wallet (buildPD w))).zscore = "0.0" := by
  have hlp : (buildPD w).lp_transactions = none := by
    unfold buildPD
    cases w.data.find? fun p => p.protocolType == "dexes" <;> rfl
  have hsw : (buildPD w).swap_transactions = none := by
    unfold buildPD
    cases w.data.find? fun p => p.protocolType == "dexes" <;> rfl
  have hpre : preprocess_dex_transactions (buildPD w) = [] := by
    simp [preprocess_dex_transactions, hlp, hsw]
  have hpw : process_wallet (buildPD w) = zeroWalletResult := by
    simp [process_wallet, hpre]
  refine ⟨hlp, hsw, hpre, hpw, ?_⟩
  rw [hpw]
  show pyFloatStr zeroWalletResult.zscore = "0.0"
  decide

/-- Witness for C1 at a concrete validated message with an empty data list. -/
theorem claim_C1_witness :
    (buildPD ⟨"w", []⟩).lp_transactions = none ∧ (buildPD ⟨"w", []⟩).swap_transactions = none ∧
    preprocess_dex_transactions (buildPD ⟨"w", []⟩) = [] ∧
    process_wallet (buildPD ⟨"w", []⟩) = zeroWalletResult ∧
    (buildSuccess ⟨"w", []⟩ (buildPD ⟨"w", []⟩) (process_wallet (buildPD ⟨"w", []⟩))).zscore
      = "0.0" :=
  claim_C1 { wallet_address := some "w", data := some [] } ⟨"w", []⟩ rfl

/-- C2 as stated is false: a deposit at epoch timestamp 0 is parsable and has
a strictly later withdraw, so the claimed rule averages to 1 day, but the
code skips the falsy timestamp and returns 0. -/
theorem claim_C2_counterexample :
    claimHoldingTime [c2Deposit] [c2Withdraw] = 1 ∧
    calculate_holding_time [c2Deposit] [c2Withdraw] = 0 := by
  constructor
  · norm_num [claimHoldingTime, c2Deposit, c2Withdraw, parseTimestamp, holdingContribution,
      futureWithdrawTimes, listMean, List.filterMap_cons, List.min?, Option.bind]
  · norm_num [calculate_holding_time, c2Deposit, c2Withdraw, tsTruthy]

/-- C2 amended: `calculate_holding_time` implements the claimed matching rule
restricted to deposits whose raw timestamp is truthy (present, nonzero,
nonempty). -/
theorem claim_C2 (deposits withdraws : List Tx) :
    calculate_holding_time deposits withdraws = claimHoldingTimeTruthy deposits withdraws := by
  have hfun : ∀ dep : Tx,
      (match dep.timestamp with
       | none => none
       | some tsv =>
         if tsTruthy tsv = false then none
         else
           match parseTimestamp tsv with
           | none => none
           | some deposit_time => holdingContribution withdraws deposit_time) =
      (match dep.timestamp with
       | none => none
       | some tsv =>
         if tsTruthy tsv then
           match parseTimestamp tsv with
           | none => none
           | some deposit_time => holdingContribution withdraws deposit_time
         else none) := by
    intro dep
    cases dep.timestamp with
    | none => rfl
    | some tsv => cases htr : tsTruthy tsv <;> simp [htr]
  unfold calculate_holding_time claimHoldingTimeTruthy
  rw [congrArg (fun fn => List.filterMap fn deposits) (funext hfun)]
  by_cases hd : deposits.isEmpty
  · rw [List.isEmpty_iff] at hd
    subst hd
    simp
  · simp [hd]

/-- C3 as stated is false at epoch timestamp t0 = 0: the deposit's timestamp
is falsy in Python, so no holding time is recorded; the average is 0 and the
holding sub-score is 0, not 30 and 150 as claimed for every t0. -/
theorem claim_C3_counterexample :
    (calculate_lp_features (c3Txs 0 5)).map (fun f => f.avg_hold_time_days) = some 0 ∧
    ((calculate_lp_score (calculate_lp_features (c3Txs 0 5))).2).holding_score = 0 := by
  have hne1 : ("withdraw" : String) ≠ "deposit" := by decide
  have hne2 : ("deposit" : String) ≠ "withdraw" := by decide
  have hp : ("pool1" : String) ≠ "" := by decide
  have hfeat : calculate_lp_features (c3Txs 0 5) = some ⟨5, 5, 1, 1, 1, 0, 30, 1⟩ := by
    norm_num [calculate_lp_features, c3Txs, calculate_holding_time, holdingContribution,
      futureWithdrawTimes, parseTimestamp, tsTruthy, listMean, List.min?, List.max?,
      List.filterMap_cons, List.filter_cons, List.sum_cons, List.dedup_cons_of_mem,
      List.dedup_cons_of_not_mem, List.dedup_nil, List.mem_dedup, List.mem_singleton,
      hne1, hne2, hp]
  rw [hfeat]
  refine ⟨rfl, ?_⟩
  norm_num [calculate_lp_score]

/-- C3 amended: for every nonzero epoch timestamp t0 and any withdraw usd
amount, a single deposit at t0 and a withdraw 30 days later on the same pool
give an average holding time of 30 days and a holding sub-score of 150. -/
theorem claim_C3 (t0 amount : ℚ) (h : t0 ≠ 0) :
    (calculate_lp_features (c3Txs t0 amount)).map (fun f => f.avg_hold_time_days) = some 30 ∧
    ((calculate_lp_score (calculate_lp_features (c3Txs t0 amount))).2).holding_score = 150 := by
  have h1 : t0 < t0 + 2592000 := by linarith
  have h2 : min t0 (t0 + 2592000) = t0 := min_eq_left (by linarith)
  have h3 : max t0 (t0 + 2592000) = t0 + 2592000 := max_eq_right (by linarith)
  have hne1 : ("withdraw" : String) ≠ "deposit" := by decide
  have hne2 : ("deposit" : String) ≠ "withdraw" := by decide
  have hp : ("pool1" : String) ≠ "" := by decide
  have hfeat : calculate_lp_features (c3Txs t0 amount) =
      some ⟨5, amount, 1, 1, amount / 5, 30, 30, 1⟩ := by
    norm_num [calculate_lp_features, c3Txs, calculate_holding_time, holdingContribution,
      futureWithdrawTimes, parseTimestamp, tsTruthy, listMean, List.min?, List.max?,
      List.filterMap_cons, List.filter_cons, List.sum_cons, List.dedup_cons_of_mem,
      List.dedup_cons_of_not_mem, List.dedup_nil, List.mem_dedup, List.mem_singleton,
      h, h1, h2, h3, hne1, hne2, hp]
  rw [hfeat]
  refine ⟨rfl, ?_⟩
  norm_num [calculate_lp_score]

/-- Witness for C3 at t0 = 86400, amount = 7. -/
theorem claim_C3_witness :
    (86400 : ℚ) ≠ 0 ∧
    (calculate_lp_features (c3Txs 86400 7)).map (fun f => f.avg_hold_time_days) = some 30 ∧
    ((calculate_lp_score (calculate_lp_features (c3Txs 86400 7))).2).holding_score = 150 :=
  ⟨by norm_num, claim_C3 86400 7 (by norm_num)⟩

/-- C4: `calculate_lp_features` returns withdraw_ratio 0 when the deposits
sum to zero usd and total_withdraw/total_deposit when the sum is positive,
never dividing by zero. -/
theorem claim_C4 (txs : List Tx) (f : LPFeatures) (h : calculate_lp_features txs = some f) :
    (f.total_deposit_usd = 0 → f.withdraw_ratio = 0) ∧
    (0 < f.total_deposit_usd →
      f.withdraw_ratio = f.total_withdraw_usd / f.total_deposit_usd) := by
  unfold calculate_lp_features at h
  by_cases he : txs.isEmpty
  · simp [he] at h
  · simp only [if_neg he, Option.some.injEq] at h
    subst h
    constructor
    · intro h0
      simp only at h0 ⊢
      rw [h0] at *
      simp
    · intro hpos
      simp only at hpos ⊢
      rw [if_pos hpos]

/-- Witness for C4 at a one-swap transaction list (zero deposits). -/
theorem claim_C4_witness :
    calculate_lp_features [{ type_ := some "swap" }] = some ⟨0, 0, 0, 0, 0, 0, 0, 0⟩ ∧
    (⟨0, 0, 0, 0, 0, 0, 0, 0⟩ : LPFeatures).withdraw_ratio = 0 :=
  ⟨rfl, (claim_C4 [{ type_ := some "swap" }] ⟨0, 0, 0, 0, 0, 0, 0, 0⟩ rfl).1 rfl⟩

/-- The swap list of claim C5, with token symbols exactly USDC, USDT, ETH. -/
def c5Swaps : List Tx :=
  [{ type_ := some "swap", token_in_symbol := some "USDC", token_out_symbol := some "USDT" },
   { type_ := some "swap", token_in_symbol := some "ETH", token_out_symbol := some "USDC" }]

/-- C5: token diversity classifies each distinct symbol case-insensitively
against the fixed stable set and scores min(stable*10 + volatile*15, 150);
the symbols USDC, USDT, ETH score 35. -/
theorem claim_C5 :
    (∀ swaps : List Tx, calculate_token_diversity swaps =
      min (stableTokenCount swaps * 10 + volatileTokenCount swaps * 15) 150) ∧
    calculate_token_diversity c5Swaps = 35 := by
  constructor
  · intro swaps
    by_cases h : swaps.isEmpty
    · rw [List.isEmpty_iff] at h
      subst h
      simp [calculate_token_diversity, stableTokenCount, volatileTokenCount, swapTokens]
    · simp only [calculate_token_diversity, if_neg h, stableTokenCount, volatileTokenCount]
      rw [List.length_eq_countP_add_countP fun t => is_stable_token t]
      have hcount : (swapTokens swaps).countP (fun a => !is_stable_token a) =
          (swapTokens swaps).countP fun a => decide ¬is_stable_token a = true := by
        apply List.countP_congr
        intro a _
        cases ha : is_stable_token a <;> simp [ha]
      rw [hcount]
      congr 1
      omega
  · decide

/-- Round-half-even never overshoots by more than one half. -/
theorem roundHalfEven_le (x : ℚ) : (roundHalfEven x : ℚ) ≤ x + 1/2 := by
  have hf : (⌊x⌋ : ℚ) ≤ x := Int.floor_le x
  have hc : x < ⌊x⌋ + 1 := Int.lt_floor_add_one x
  unfold roundHalfEven
  split_ifs with h1 h2 h3 <;> push_cast <;> linarith

/-- Round-half-even never undershoots by more than one half. -/
theorem le_roundHalfEven (x : ℚ) : x - 1/2 ≤ (roundHalfEven x : ℚ) := by
  have hf : (⌊x⌋ : ℚ) ≤ x := Int.floor_le x
  have hc : x < ⌊x⌋ + 1 := Int.lt_floor_add_one x
  unfold roundHalfEven
  split_ifs with h1 h2 h3 <;> push_cast <;> linarith

/-- `round(x, 3)` stays within [-3, 3] when its argument does. -/
theorem round3_bounds (x : ℚ) (hl : -3 ≤ x) (hu : x ≤ 3) :
    -3 ≤ round3 x ∧ round3 x ≤ 3 := by
  have h1 := roundHalfEven_le (x * 1000)
  have h2 := le_roundHalfEven (x * 1000)
  have hub : roundHalfEven (x * 1000) < 3001 := by
    have : (roundHalfEven (x * 1000) : ℚ) < 3001 := by linarith
    exact_mod_cast this
  have hlb : -3001 < roundHalfEven (x * 1000) := by
    have : (-3001 : ℚ) < (roundHalfEven (x * 1000) : ℚ) := by linarith
    exact_mod_cast this
  have hub' : (roundHalfEven (x * 1000) : ℚ) ≤ 3000 := by
    have : roundHalfEven (x * 1000) ≤ 3000 := by omega
    exact_mod_cast this
  have hlb' : (-3000 : ℚ) ≤ (roundHalfEven (x * 1000) : ℚ) := by
    have : -3000 ≤ roundHalfEven (x * 1000) := by omega
    exact_mod_cast this
  unfold round3
  constructor <;> linarith

/-- C6: the zscore is round(clamp((0.6*lp + 0.4*swap − 50)/25, −3, 3), 3),
always numerically within [-3, 3] for any inputs, and the success record
renders exactly that value as its zscore string. -/
theorem claim_C6 (lp_score swap_score : ℚ) (lp_features : Option LPFeatures)
    (swap_features : Option SwapFeatures) :
    (calculate_final_score lp_score swap_score lp_features swap_features).zscore =
      round3 (max (-3) (min 3 ((0.6 * lp_score + 0.4 * swap_score - 50) / 25))) ∧
    -3 ≤ (calculate_final_score lp_score swap_score lp_features swap_features).zscore ∧
    (calculate_final_score lp_score swap_score lp_features swap_features).zscore ≤ 3 ∧
    ∀ (w : DMsg) (pd : PD) (r : WalletResult),
      (buildSuccess w pd r).zscore = pyFloatStr r.zscore := by
  have harg : (lp_score * 0.6 + swap_score * 0.4 - 50) / 25 =
      (0.6 * lp_score + 0.4 * swap_score - 50) / 25 := by ring
  have hz : (calculate_final_score lp_score swap_score lp_features swap_features).zscore =
      round3 (max (-3) (min 3 ((0.6 * lp_score + 0.4 * swap_score - 50) / 25))) := by
    simp only [calculate_final_score]
    rw [harg]
  have hcl : -3 ≤ max (-3) (min 3 ((0.6 * lp_score + 0.4 * swap_score - 50) / 25)) :=
    le_max_left _ _
  have hcu : max (-3) (min 3 ((0.6 * lp_score + 0.4 * swap_score - 50) / 25)) ≤ 3 :=
    max_le (by norm_num) (min_le_left _ _)
  obtain ⟨hb1, hb2⟩ := round3_bounds _ hcl hcu
  rw [hz]
  exact ⟨rfl, hb1, hb2, fun w pd r => rfl⟩

/-- An LP feature set with negative withdraw_ratio (claim C7's
counterexample). -/
def c7BadFeatures : LPFeatures := ⟨1000000, 0, 100, 0, -1, 100, 0, 10⟩

/-- An ordinary LP feature set with nonnegative withdraw_ratio (claim C7's
witness input). -/
def c7GoodFeatures : LPFeatures := ⟨20000, 5000, 3, 1, 1/4, 10, 40, 2⟩

/-- C7 as stated is false: `calculate_lp_score` applies no cap to the total,
and a negative withdraw_ratio pushes the retention term past 250, so the
total reaches 1250 > 1000. -/
theorem claim_C7_counterexample :
    1000 < (calculate_lp_score (some c7BadFeatures)).1 := by
  norm_num [calculate_lp_score, c7BadFeatures]

/-- C7 amended: the LP score is the stated sum of five terms, and it is at
most 1000 whenever the feature set's withdraw_ratio is nonnegative. -/
theorem claim_C7 (f : LPFeatures) (h : 0 ≤ f.withdraw_ratio) :
    (calculate_lp_score (some f)).1 =
      min (f.total_deposit_usd / 10000 * 300) 300 + min ((f.num_deposits : ℚ) * 20) 200 +
      max 0 ((1 - f.withdraw_ratio) * 250) + min (f.avg_hold_time_days / 30 * 150) 150 +
      min ((f.unique_pools : ℚ) * 20) 100 ∧
    (calculate_lp_score (some f)).1 ≤ 1000 := by
  have heq : (calculate_lp_score (some f)).1 =
      min (f.total_deposit_usd / 10000 * 300) 300 + min ((f.num_deposits : ℚ) * 20) 200 +
      max 0 ((1 - f.withdraw_ratio) * 250) + min (f.avg_hold_time_days / 30 * 150) 150 +
      min ((f.unique_pools : ℚ) * 20) 100 := rfl
  refine ⟨heq, ?_⟩
  rw [heq]
  have h1 : min (f.total_deposit_usd / 10000 * 300) 300 ≤ 300 := min_le_right _ _
  have h2 : min ((f.num_deposits : ℚ) * 20) 200 ≤ 200 := min_le_right _ _
  have h3 : max 0 ((1 - f.withdraw_ratio) * 250) ≤ 250 := by
    apply max_le (by norm_num)
    nlinarith
  have h4 : min (f.avg_hold_time_days / 30 * 150) 150 ≤ 150 := min_le_right _ _
  have h5 : min ((f.unique_pools : ℚ) * 20) 100 ≤ 100 := min_le_right _ _
  linarith

/-- Witness for C7 at an ordinary feature set. -/
theorem claim_C7_witness :
    0 ≤ c7GoodFeatures.withdraw_ratio ∧ (calculate_lp_score (some c7GoodFeatures)).1 ≤ 1000 :=
  ⟨by norm_num [c7GoodFeatures], (claim_C7 c7GoodFeatures (by norm_num [c7GoodFeatures])).2⟩

/-- A raw transaction is rejected by the `Transaction` model: a required
field is missing, its action fails the pattern, or the token legs its action
requires are absent. -/
def txBad (t : RawTx) : Prop :=
  t.document_id = none ∨ t.action = none ∨ t.timestamp = none ∨ t.caller = none ∨
  t.protocol = none ∨ t.poolId = none ∨ t.poolName = none ∨
  (∃ a, t.action = some a ∧ actionOk a = false) ∨
  (t.action = some "swap" ∧ (t.tokenIn = none ∨ t.tokenOut = none)) ∨
  ((t.action = some "deposit" ∨ t.action = some "withdraw") ∧
    (t.token0 = none ∨ t.token1 = none))

/-- `decodeTx` fails exactly on the rejection conditions of `txBad`. -/
theorem decodeTx_error_iff (t : RawTx) : (∃ e, decodeTx t = .error e) ↔ txBad t := by
  obtain ⟨did, act, ts, c, pr, pid, pn, ti, tko, tk0, tk1⟩ := t
  cases did <;> cases act <;> cases ts <;> cases c <;> cases pr <;> cases pid <;> cases pn <;>
    simp [decodeTx, txBad]
  rename_i did a ts c pr pid pn
  by_cases hA : actionOk a
  · simp only [if_pos hA]
    rw [show (actionOk a = false ↔ False) by simp [hA]]
    split_ifs with hx hy
    · simp [hx]
    · simp [hy, hx]
    · constructor
      · rintro ⟨e, he⟩
        simp at he
      · intro hor
        rcases hor with h | h | h
        · exact absurd h (by simp)
        · exact absurd h hx
        · exact absurd h hy
  · simp [hA]

/-- List validation fails exactly when some element is rejected. -/
theorem decodeTxs_error_iff (l : List RawTx) :
    (∃ e, decodeTxs l = .error e) ↔ ∃ t ∈ l, txBad t := by
  induction l with
  | nil => simp [decodeTxs]
  | cons t ts ih =>
    simp only [decodeTxs]
    cases hd : decodeTx t with
    | error e =>
      have hb : txBad t := (decodeTx_error_iff t).mp ⟨e, hd⟩
      simp [hb]
    | ok d =>
      have hnb : ¬ txBad t := by
        intro hb
        obtain ⟨e, he⟩ := (decodeTx_error_iff t).mpr hb
        rw [hd] at he
        simp at he
      cases hr : decodeTxs ts with
      | error e2 =>
        have hts : ∃ x ∈ ts, txBad x := ih.mp ⟨e2, hr⟩
        simp [hts, hnb]
      | ok ds =>
        have hts : ¬ ∃ x ∈ ts, txBad x := by
          intro hex
          obtain ⟨e, he⟩ := ih.mpr hex
          rw [hr] at he
          simp at he
        simp only [List.mem_cons]
        constructor
        · rintro ⟨e, he⟩
          simp at he
        · rintro ⟨x, hx | hx, hbx⟩
          · exact absurd (hx ▸ hbx) hnb
          · exact absurd ⟨x, hx, hbx⟩ hts

/-- A raw protocol group is rejected by the `ProtocolData` model: a required
field is missing, the protocol type is not `"dexes"`, or some transaction is
rejected. -/
def protoBad (p : RawProtocol) : Prop :=
  p.protocolType = none ∨ (∃ s, p.protocolType = some s ∧ s ≠ "dexes") ∨
  p.transactions = none ∨ ∃ t ∈ p.transactions.getD [], txBad t

/-- `decodeProtocol` fails exactly on the rejection conditions of
`protoBad`. -/
theorem decodeProtocol_error_iff (p : RawProtocol) :
    (∃ e, decodeProtocol p = .error e) ↔ protoBad p := by
  obtain ⟨pt, txs⟩ := p
  cases pt with
  | none => simp [decodeProtocol, protoBad]
  | some s =>
    cases txs with
    | none => simp [decodeProtocol, protoBad]
    | some l =>
      simp only [decodeProtocol, protoBad]
      by_cases hs : s = "dexes"
      · subst hs
        simp only [if_pos rfl]
        cases hr : decodeTxs l with
        | error e =>
          have hb : ∃ t ∈ l, txBad t := (decodeTxs_error_iff l).mp ⟨e, hr⟩
          simp [hb]
        | ok ds =>
          have hnb : ¬ ∃ t ∈ l, txBad t := by
            intro hex
            obtain ⟨e, he⟩ := (decodeTxs_error_iff l).mpr hex
            rw [hr] at he
            simp at he
          simp [hnb]
      · simp [hs]

/-- Protocol-group list validation fails exactly when some group is
rejected. -/
theorem decodeProtocols_error_iff (l : List RawProtocol) :
    (∃ e, decodeProtocols l = .error e) ↔ ∃ p ∈ l, protoBad p := by
  induction l with
  | nil => simp [decodeProtocols]
  | cons p ps ih =>
    simp only [decodeProtocols]
    cases hd : decodeProtocol p with
    | error e =>
      have hb : protoBad p := (decodeProtocol_error_iff p).mp ⟨e, hd⟩
      simp [hb]
    | ok d =>
      have hnb : ¬ protoBad p := by
        intro hb
        obtain ⟨e, he⟩ := (decodeProtocol_error_iff p).mpr hb
        rw [hd] at he
        simp at he
      cases hr : decodeProtocols ps with
      | error e2 =>
        have hps : ∃ x ∈ ps, protoBad x := ih.mp ⟨e2, hr⟩
        simp [hps, hnb]
      | ok ds =>
        have hps : ¬ ∃ x ∈ ps, protoBad x := by
          intro hex
          obtain ⟨e, he⟩ := ih.mpr hex
          rw [hr] at he
          simp at he
        simp only [List.mem_cons]
        constructor
        · rintro ⟨e, he⟩
          simp at he
        · rintro ⟨x, hx | hx, hbx⟩
          · exact absurd (hx ▸ hbx) hnb
          · exact absurd ⟨x, hx, hbx⟩ hps

/-- C8 amended: decoding fails exactly when the wallet address or data list
is missing, some protocol group lacks a field or has a protocol type other
than `"dexes"`, or some transaction lacks a required field, has an invalid
action, or lacks the token legs its action requires.  A non-dexes group is
therefore rejected at validation, never decoded-and-ignored. -/
theorem claim_C8 (m : RawMsg) :
    (∃ e, decodeMsg m = .error e) ↔
      m.wallet_address = none ∨ m.data = none ∨ ∃ p ∈ m.data.getD [], protoBad p := by
  obtain ⟨wa, data⟩ := m
  cases wa with
  | none => simp [decodeMsg]
  | some w =>
    cases data with
    | none => simp [decodeMsg]
    | some ps =>
      simp only [decodeMsg]
      cases hr : decodeProtocols ps with
      | error e =>
        have hb : ∃ p ∈ ps, protoBad p := (decodeProtocols_error_iff ps).mp ⟨e, hr⟩
        simp [hb]
      | ok ds =>
        have hnb : ¬ ∃ p ∈ ps, protoBad p := by
          intro hex
          obtain ⟨e, he⟩ := (decodeProtocols_error_iff ps).mpr hex
          rw [hr] at he
          simp at he
        simp [hnb]

/-- The batch of claim C8's "in particular" clause: a present wallet address
and a single well-formed group whose protocolType is not `"dexes"`. -/
def c8Msg : RawMsg :=
  { wallet_address := some "wallet1",
    data := some [{ protocolType := some "lending", transactions := some [] }] }

/-- C8 as stated is false: a batch whose only protocol group has
protocolType `"lending"` (wallet present, no transactions at all, so no
action or token-leg defect) does not decode — it is rejected by the
`^dexes$` pattern. -/
theorem claim_C8_counterexample :
    decodeMsg c8Msg = .error "protocolType pattern mismatch" ∧
    c8Msg.wallet_address = some "wallet1" ∧
    c8Msg.data = some [{ protocolType := some "lending", transactions := some [] }] :=
  ⟨rfl, rfl, rfl⟩

/-- C9: any per-record error yields a failure record whose wallet address is
the raw payload's wallet_address (literal `"unknown"` when absent) with an
empty categories list, bumps `messages_failed` by exactly one, leaves
`messages_processed` unchanged, and the consume loop still emits exactly one
record per inbound message. -/
theorem claim_C9 (m : RawMsg) (st : Stats) (e : String) (h : runPipeline m = .error e) :
    (processMessage m st).1 = .failure ⟨m.wallet_address.getD "unknown", e, []⟩ ∧
    (processMessage m st).2.messages_failed = st.messages_failed + 1 ∧
    (processMessage m st).2.messages_processed = st.messages_processed ∧
    ∀ (ms : List RawMsg) (st0 : Stats), (consumeMessages ms st0).1.length = ms.length := by
  refine ⟨by simp [processMessage, h], by simp [processMessage, h],
    by simp [processMessage, h], ?_⟩
  intro ms
  induction ms with
  | nil => intro st0; rfl
  | cons m2 ms2 ih => intro st0; simp [consumeMessages, ih]

/-- Witness for C9 at a message with no wallet address. -/
theorem claim_C9_witness :
    (processMessage { wallet_address := none, data := none } ⟨0, 0⟩).1 =
      .failure ⟨"unknown", "missing wallet_address or data", []⟩ ∧
    (processMessage { wallet_address := none, data := none } ⟨0, 0⟩).2.messages_failed = 1 :=
  ⟨(claim_C9 { wallet_address := none, data := none } ⟨0, 0⟩
      "missing wallet_address or data" rfl).1,
   (claim_C9 { wallet_address := none, data := none } ⟨0, 0⟩
      "missing wallet_address or data" rfl).2.1⟩

/-- C10: when every run fails, the retry loop sleeps exactly 5, 10, 20, 40,
80 seconds in that order and then ends in the terminal failed state, and a
successful run resets the retry counter to 0. -/
theorem claim_C10 :
    (∀ l : List RunOutcome, (∀ x ∈ l, x = .fail) → 6 ≤ l.length →
      runWithRetry l 0 = ([5, 10, 20, 40, 80], .failed)) ∧
    (∀ (l : List RunOutcome) (rc : ℕ), runWithRetry (.ok :: l) rc = runWithRetry l 0) := by
  constructor
  · intro l hall hlen
    rcases l with _ | ⟨a, _ | ⟨b, _ | ⟨c, _ | ⟨d, _ | ⟨e, _ | ⟨f, rest⟩⟩⟩⟩⟩⟩ <;>
      simp only [List.length_nil, List.length_cons] at hlen <;> try omega
    have ha : a = .fail := hall a (by simp)
    have hb : b = .fail := hall b (by simp)
    have hc : c = .fail := hall c (by simp)
    have hd : d = .fail := hall d (by simp)
    have he : e = .fail := hall e (by simp)
    have hf : f = .fail := hall f (by simp)
    subst ha hb hc hd he hf
    norm_num [runWithRetry]
  · intro l rc
    rfl

/-- Witness for C10 at six consecutive failures starting from a fresh
counter. -/
theorem claim_C10_witness :
    runWithRetry [.fail, .fail, .fail, .fail, .fail, .fail] 0 = ([5, 10, 20, 40, 80], .failed) :=
  claim_C10.1 [.fail, .fail, .fail, .fail, .fail, .fail] (by decide) (by decide)
